import Mathlib

/-!
Verification of the RepelBridge polling-bridge integration.

The development shallowly embeds the integration's core:
the `RepelBridgeAPI` device client, the
`RepelBridgeDataUpdateCoordinator._async_update_data` refresh cycle
(`custom_components/repelbridge/__init__.py`), the `validate_input`
connectivity probe (`config_flow.py`), and the per-bus presentation
entities' `available` / `is_on` properties (`light.py`, `sensor.py`,
`binary_sensor.py`, `switch.py`, `number.py`, `button.py`).

Each HTTP fetch is modelled by its outcome: a decoded JSON body, a
transport-level failure (`aiohttp.ClientError`, which includes
connection errors and the non-2xx raise from `raise_for_status`), or a
JSON decode failure (`json.JSONDecodeError`, raised by
`response.json()` on a malformed body; in Python this is a
`ValueError`, *not* an `aiohttp.ClientError`).
-/

namespace RepelBridge

/-- A decoded JSON value.  Only flat values are needed by the
properties under study; nested objects are never inspected by the
embedded code paths. -/
inductive JsonVal where
  | str (s : String)
  | num (n : Int)
  | boolean (b : Bool)
  | null
deriving DecidableEq, Repr

/-- A decoded JSON object: a Python dict, as an association list. -/
abbrev JsonObj := List (String × JsonVal)

/-- Python `d.get(k)` / `k in d`. -/
def dictGet (o : JsonObj) (k : String) : Option JsonVal :=
  (o.find? (fun p => p.1 == k)).map (fun p => p.2)

/-- Python `d.get(k, default)`. -/
def dictGetD (o : JsonObj) (k : String) (d : JsonVal) : JsonVal :=
  (dictGet o k).getD d

/-- Python `k in d`. -/
def dictContains (o : JsonObj) (k : String) : Bool :=
  (dictGet o k).isSome

/-- How a single HTTP fetch can fail.

`clientError` is `aiohttp.ClientError`: connection refused, timeout at
the connection level, or a non-2xx status raised by
`response.raise_for_status()`.  `jsonError` is
`json.JSONDecodeError` from `response.json()` on a malformed body,
which is a `ValueError` and therefore *not* caught by
`except aiohttp.ClientError`. -/
inductive FetchError where
  | clientError
  | jsonError
deriving DecidableEq, Repr

deriving instance DecidableEq for Except

/-- The device as seen through one refresh cycle: the outcome each
endpoint would produce if fetched.  `α` is the type of decoded
bodies. -/
structure Device (α : Type) where
  systemStatus : Except FetchError α
  busStatus : Nat → Except FetchError α
  cartridgeStatus : Nat → Except FetchError α
  autoShutoff : Nat → Except FetchError α
  warnAt : Nat → Except FetchError α

/-- The per-bus dict built at `__init__.py:163-168`: always all four
keys `status`, `cartridge`, `auto_shutoff`, `warn_at`. -/
structure BusRecord (α : Type) where
  status : α
  cartridge : α
  auto_shutoff : α
  warn_at : α
deriving DecidableEq, Repr

/-- The four sequential awaits of the per-bus `try` block
(`__init__.py:158-161`): each later fetch happens only if every
earlier one succeeded; the first exception propagates. -/
def fetchBusRecord {α : Type} (d : Device α) (bus_id : Nat) :
    Except FetchError (BusRecord α) :=
  match d.busStatus bus_id with
  | .error e => .error e
  | .ok s =>
    match d.cartridgeStatus bus_id with
    | .error e => .error e
    | .ok c =>
      match d.autoShutoff bus_id with
      | .error e => .error e
      | .ok a =>
        match d.warnAt bus_id with
        | .error e => .error e
        | .ok w => .ok ⟨s, c, a, w⟩

/-- The loop header `for bus_id in [0, 1]` (`__init__.py:156`). -/
def busIds : List Nat := [0, 1]

/-- The snapshot dict `{"system": ..., "buses": {...}}` built by
`_async_update_data`. -/
structure Snapshot (α : Type) where
  system : α
  buses : List (Nat × BusRecord α)
deriving DecidableEq, Repr

/-- The per-bus loop of `_async_update_data` (`__init__.py:156-172`).
Returns the assembled `buses` mapping (`none` when an exception
escaped the loop) together with the list of bus ids for which the
`_LOGGER.warning` at line 170 fired.  A `clientError` from a sub-fetch
is caught by `except aiohttp.ClientError`, logged, and the loop
continues; a `jsonError` is not caught there and aborts the loop. -/
def runBuses {α : Type} (d : Device α) :
    List Nat → List (Nat × BusRecord α) → List Nat →
    Option (List (Nat × BusRecord α)) × List Nat
  | [], acc, warns => (some acc, warns)
  | b :: rest, acc, warns =>
    match fetchBusRecord d b with
    | .ok rec => runBuses d rest (acc ++ [(b, rec)]) warns
    | .error .clientError => runBuses d rest acc (warns ++ [b])
    | .error .jsonError => (none, warns)

/-- `RepelBridgeDataUpdateCoordinator._async_update_data`
(`__init__.py:147-177`).  Yields `(some snapshot, warnings)` on a
cycle that returns data, and `(none, warnings)` when the outer
`except Exception` converts an escaped exception into `UpdateFailed`.
The system-status fetch is first; any failure there is fatal. -/
def updateData {α : Type} (d : Device α) :
    Option (Snapshot α) × List Nat :=
  match d.systemStatus with
  | .error _ => (none, [])
  | .ok sys =>
    match runBuses d busIds [] [] with
    | (some buses, warns) => (some ⟨sys, buses⟩, warns)
    | (none, warns) => (none, warns)

/-- The two consumer-visible fields of the coordinator: the held
snapshot (`coordinator.data`) and `coordinator.last_update_success`. -/
structure CoordinatorState (α : Type) where
  data : Option (Snapshot α)
  last_update_success : Bool
deriving DecidableEq, Repr

/-- Modelled from the spec: the host framework's
`DataUpdateCoordinator` refresh step is not part of this repository's
sources; per the spec, a cycle that raises `UpdateFailed` leaves the
previous snapshot in place and sets the success flag to false, while a
cycle that returns data replaces the snapshot wholesale and sets the
flag to true. -/
def refreshStep {α : Type} (st : CoordinatorState α) (d : Device α) :
    CoordinatorState α :=
  match (updateData d).1 with
  | some snap => ⟨some snap, true⟩
  | none => ⟨st.data, false⟩

/-- Python `bus_id in data["buses"]` / `data["buses"][bus_id]` on the
assembled mapping. -/
def busLookup {α : Type} (buses : List (Nat × BusRecord α)) (bus_id : Nat) :
    Option (BusRecord α) :=
  (buses.find? (fun p => p.1 == bus_id)).map (fun p => p.2)

/-- The `available` property shared verbatim by every per-bus entity
(`light.py:73-79`, `sensor.py:82-89`, `binary_sensor.py:67-73`,
`switch.py:63-69`, `number.py:67-73`, `button.py:68-74`):
`coordinator.last_update_success and bus_id in
coordinator.data.get("buses", {})`. -/
def available {α : Type} (st : CoordinatorState α) (bus_id : Nat) : Bool :=
  st.last_update_success &&
    (match st.data with
     | some snap => (busLookup snap.buses bus_id).isSome
     | none => false)

/-- One endpoint of the device API, for tracing which fetches a cycle
issues. -/
inductive Endpoint where
  | systemStatus
  | busStatus (bus_id : Nat)
  | cartridgeStatus (bus_id : Nat)
  | autoShutoff (bus_id : Nat)
  | warnAt (bus_id : Nat)
deriving DecidableEq, Repr

/-- The bus identifier an endpoint targets, if any. -/
def Endpoint.busTarget : Endpoint → Option Nat
  | .systemStatus => none
  | .busStatus b => some b
  | .cartridgeStatus b => some b
  | .autoShutoff b => some b
  | .warnAt b => some b

/-- The fetches issued by the per-bus `try` block for one bus, in
order: the bus-status fetch always happens; each later fetch happens
only if every earlier one succeeded (`__init__.py:158-161`). -/
def busTrace {α : Type} (d : Device α) (b : Nat) : List Endpoint :=
  .busStatus b ::
    match d.busStatus b with
    | .error _ => []
    | .ok _ => .cartridgeStatus b ::
      match d.cartridgeStatus b with
      | .error _ => []
      | .ok _ => .autoShutoff b ::
        match d.autoShutoff b with
        | .error _ => []
        | .ok _ => [.warnAt b]

/-- The fetches issued by the `for bus_id in [0, 1]` loop: after a
caught `clientError` the loop moves to the next bus; an uncaught
`jsonError` aborts the loop (and the cycle). -/
def busLoopTrace {α : Type} (d : Device α) : List Nat → List Endpoint
  | [] => []
  | b :: rest =>
    busTrace d b ++
      match fetchBusRecord d b with
      | .error .jsonError => []
      | _ => busLoopTrace d rest

/-- All fetches issued by one `_async_update_data` cycle, in order:
system status first; per-bus fetches only if it succeeded. -/
def cycleTrace {α : Type} (d : Device α) : List Endpoint :=
  .systemStatus ::
    match d.systemStatus with
    | .error _ => []
    | .ok _ => busLoopTrace d busIds

/-- The full fetch order of a cycle in which nothing fails. -/
def canonicalOrder : List Endpoint :=
  [.systemStatus,
   .busStatus 0, .cartridgeStatus 0, .autoShutoff 0, .warnAt 0,
   .busStatus 1, .cartridgeStatus 1, .autoShutoff 1, .warnAt 1]

/-! ## Connectivity probe (`config_flow.py:28-55`) -/

/-- Outcome of the raw `session.get` probe: a transport failure
(`aiohttp.ClientError`), or a response with a status code and a body
(`none` = malformed JSON, so `response.json()` raises
`json.JSONDecodeError`). -/
inductive ProbeResult where
  | transportFailure
  | response (status : Nat) (body : Option JsonObj)
deriving DecidableEq, Repr

/-- The exceptions that can leave the `try` block of
`validate_input`. -/
inductive TryException where
  | clientError
  | cannotConnect
  | invalidHost
  | jsonDecodeError
deriving DecidableEq, Repr

/-- The errors `validate_input` can signal to its caller. -/
inductive ValidationError where
  | cannotConnect
  | invalidHost
deriving DecidableEq, Repr

/-- The `try` body of `validate_input` (`config_flow.py:37-46`):
non-200 status raises `CannotConnect`; a malformed body raises
`JSONDecodeError`; a body without `device_name` raises
`InvalidHost`. -/
def validateTry (probe : ProbeResult) : Except TryException JsonObj :=
  match probe with
  | .transportFailure => .error .clientError
  | .response status body =>
    if status ≠ 200 then .error .cannotConnect
    else
      match body with
      | none => .error .jsonDecodeError
      | some system_data =>
        if dictContains system_data "device_name" = false then
          .error .invalidHost
        else .ok system_data

/-- `validate_input` (`config_flow.py:28-55`).  The handler chain is
`except aiohttp.ClientError: raise CannotConnect` followed by
`except Exception: raise CannotConnect`; the second clause also
catches the `CannotConnect` and `InvalidHost` raised inside the `try`
body, so every exception leaving the `try` block reaches the caller
as `CannotConnect`. -/
def validate_input (probe : ProbeResult) : Except ValidationError JsonObj :=
  match validateTry probe with
  | .ok system_data => .ok system_data
  | .error .clientError => .error .cannotConnect
  | .error _ => .error .cannotConnect

/-! ## Brightness path (`__init__.py:74-80`, `light.py:135-142`) -/

/-- The POST issued by `RepelBridgeAPI.set_brightness`: the URL and
the form field `value`. -/
structure BrightnessRequest where
  url : String
  value : Nat
deriving DecidableEq, Repr

/-- `RepelBridgeAPI.set_brightness` (`__init__.py:74-80`): posts
`{"value": brightness}` to `/api/bus/{bus_id}/brightness` with no
validation or clamping of the argument. -/
def set_brightness (host : String) (bus_id : Nat) (brightness : Nat) :
    BrightnessRequest :=
  { url := "http://" ++ host ++ "/api/bus/" ++ toString bus_id ++ "/brightness"
  , value := brightness }

/-- The brightness branch of `RepelBridgeLight.async_turn_on`
(`light.py:138-142`): `repeller_brightness = min(ha_brightness, 254)`
before calling `set_brightness`. -/
def light_turn_on_brightness (host : String) (bus_id : Nat)
    (ha_brightness : Nat) : BrightnessRequest :=
  set_brightness host bus_id (min ha_brightness 254)

/-! ## Cartridge-low binary sensor (`binary_sensor.py`) -/

/-- `DEFAULT_CARTRIDGE_LOW_THRESHOLD` (`binary_sensor.py:22`). -/
def DEFAULT_CARTRIDGE_LOW_THRESHOLD : Int := 5

/-- `RepelBridgeCartridgeLowSensor._get_threshold`
(`binary_sensor.py:111-115`): always the default threshold. -/
def get_threshold : Int := DEFAULT_CARTRIDGE_LOW_THRESHOLD

/-- `RepelBridgeCartridgeLowSensor.is_on` (`binary_sensor.py:76-87`).
`some b` models a normal return of `b`; `none` models a raised
exception (`KeyError` on a missing bus entry, or `TypeError` from
comparing a non-numeric `percent_left` to an int) — both unreachable
when the guard and the data shape hold. -/
def cartridge_low_is_on (st : CoordinatorState JsonObj) (bus_id : Nat) :
    Option Bool :=
  if available st bus_id = false then some false
  else
    match st.data with
    | none => none
    | some snap =>
      match busLookup snap.buses bus_id with
      | none => none
      | some rec =>
        match dictGetD rec.cartridge "percent_left" (.num 100) with
        | .num percent_left => some (decide (percent_left ≤ get_threshold))
        | _ => none

/-! ## Concrete devices used by counterexamples and witnesses -/

/-- A device on which every fetch succeeds. -/
def devAllOk : Device Nat :=
  { systemStatus := .ok 10
  , busStatus := fun b => .ok (20 + b)
  , cartridgeStatus := fun b => .ok (30 + b)
  , autoShutoff := fun b => .ok (40 + b)
  , warnAt := fun b => .ok (50 + b) }

/-- A device whose bus-0 status endpoint returns a malformed JSON body
(HTTP 200, `json.JSONDecodeError` on decode); everything else
succeeds. -/
def devJsonErrBus0 : Device Nat :=
  { systemStatus := .ok 10
  , busStatus := fun b => if b = 0 then .error .jsonError else .ok (20 + b)
  , cartridgeStatus := fun b => .ok (30 + b)
  , autoShutoff := fun b => .ok (40 + b)
  , warnAt := fun b => .ok (50 + b) }

/-- A device whose bus-1 cartridge endpoint fails at transport level
(e.g. HTTP 500); everything else succeeds. -/
def devClientErrBus1 : Device Nat :=
  { systemStatus := .ok 10
  , busStatus := fun b => .ok (20 + b)
  , cartridgeStatus := fun b => if b = 1 then .error .clientError else .ok (30 + b)
  , autoShutoff := fun b => .ok (40 + b)
  , warnAt := fun b => .ok (50 + b) }

/-- A device whose system-status fetch fails. -/
def devSysFail : Device Nat :=
  { systemStatus := .error .clientError
  , busStatus := fun b => .ok (20 + b)
  , cartridgeStatus := fun b => .ok (30 + b)
  , autoShutoff := fun b => .ok (40 + b)
  , warnAt := fun b => .ok (50 + b) }

example :
    updateData devAllOk =
      (some ⟨10, [(0, ⟨20, 30, 40, 50⟩), (1, ⟨21, 31, 41, 51⟩)]⟩, []) := by
  decide

example : (updateData devJsonErrBus0).1 = none := by decide

example :
    updateData devClientErrBus1 =
      (some ⟨10, [(0, ⟨20, 30, 40, 50⟩)]⟩, [1]) := by
  decide

example : updateData devSysFail = (none, []) := by decide

example :
    cycleTrace devClientErrBus1 =
      [.systemStatus, .busStatus 0, .cartridgeStatus 0, .autoShutoff 0,
       .warnAt 0, .busStatus 1, .cartridgeStatus 1] := by
  decide

example : cycleTrace devJsonErrBus0 = [.systemStatus, .busStatus 0] := by
  decide

example :
    validate_input (.response 200 (some [("status", .str "ok")])) =
      .error .cannotConnect := rfl

example :
    validate_input (.response 200 (some [("device_name", .str "Liv1")])) =
      .ok [("device_name", .str "Liv1")] := rfl

example : validate_input (.response 500 (some [])) = .error .cannotConnect :=
  rfl

example : (set_brightness "h" 0 300).value = 300 := by decide

/-- A concrete snapshot, for witnesses. -/
def snapAllOk : Snapshot Nat :=
  ⟨10, [(0, ⟨20, 30, 40, 50⟩), (1, ⟨21, 31, 41, 51⟩)]⟩

/-- A device that agrees with `devAllOk` on buses 0 and 1 but answers
differently for bus identifiers the coordinator never fetches. -/
def devAllOkVariant : Device Nat :=
  { systemStatus := .ok 10
  , busStatus := fun b => if 2 ≤ b then .error .clientError else .ok (20 + b)
  , cartridgeStatus := fun b => if 2 ≤ b then .error .jsonError else .ok (30 + b)
  , autoShutoff := fun b => .ok (40 + b)
  , warnAt := fun b => .ok (50 + b) }

/-- A concrete bus record with a nearly empty cartridge
(`percent_left` = 3). -/
def cartLowRec : BusRecord JsonObj :=
  ⟨[("powered", .boolean true)],
   [("percent_left", .num 3), ("runtime_hours", .num 120)],
   [("auto_shutoff_minutes", .num 0)],
   [("warn_at_hours", .num 24)]⟩

/-- A coordinator state holding a snapshot whose bus 0 carries
`cartLowRec`. -/
def stCartLow : CoordinatorState JsonObj :=
  ⟨some ⟨[("device_name", .str "Liv1")], [(0, cartLowRec)]⟩, true⟩

/-- The probe response of spec Scenario C: HTTP 200 with a JSON body
that lacks `device_name`. -/
def probeNoDeviceName : ProbeResult :=
  .response 200 (some [("status", .str "ok")])

/-! ## Helper lemmas -/

lemma fetchBusRecord_ok {α : Type} {d : Device α} {b : Nat} {rec : BusRecord α}
    (h : fetchBusRecord d b = .ok rec) :
    d.busStatus b = .ok rec.status ∧ d.cartridgeStatus b = .ok rec.cartridge ∧
    d.autoShutoff b = .ok rec.auto_shutoff ∧ d.warnAt b = .ok rec.warn_at := by
  unfold fetchBusRecord at h
  repeat' split at h
  all_goals simp_all
  all_goals simp [← h]

lemma busLookup_append_cases {α : Type} {acc : List (Nat × BusRecord α)}
    {b' b : Nat} {rec' rec : BusRecord α}
    (h : busLookup (acc ++ [(b', rec')]) b = some rec) :
    busLookup acc b = some rec ∨ (b' = b ∧ rec' = rec) := by
  rw [busLookup, List.find?_append] at h
  rcases hacc : acc.find? (fun p => p.1 == b) with _ | p
  · rw [hacc] at h
    by_cases hb : b' = b
    · subst hb
      simp [List.find?] at h
      exact Or.inr ⟨rfl, h⟩
    · have hbeq : (b' == b) = false := by simpa using hb
      simp [List.find?, hbeq] at h
  · rw [hacc] at h
    simp at h
    exact Or.inl (by simp [busLookup, hacc, h])

lemma runBuses_lookup {α : Type} (d : Device α) :
    ∀ (L : List Nat) (acc : List (Nat × BusRecord α)) (warns : List Nat)
      (buses : List (Nat × BusRecord α)) (warns' : List Nat),
      runBuses d L acc warns = (some buses, warns') →
      ∀ (b : Nat) (rec : BusRecord α), busLookup buses b = some rec →
        busLookup acc b = some rec ∨ fetchBusRecord d b = .ok rec
  | [], acc, warns, buses, warns', h, b, rec, hl => by
    simp [runBuses] at h
    exact Or.inl (h.1 ▸ hl)
  | b' :: rest, acc, warns, buses, warns', h, b, rec, hl => by
    rw [runBuses] at h
    rcases hf : fetchBusRecord d b' with e' | rec'
    · rcases e'
      case clientError =>
        rw [hf] at h
        exact runBuses_lookup d rest _ _ _ _ h b rec hl
      case jsonError =>
        rw [hf] at h
        simp at h
    · rw [hf] at h
      rcases runBuses_lookup d rest _ _ _ _ h b rec hl with hin | hok
      · rcases busLookup_append_cases hin with hacc | ⟨hb, hrec⟩
        · exact Or.inl hacc
        · exact Or.inr (hb ▸ hrec ▸ hf)
      · exact Or.inr hok

/-! ## Claim C4 -/

/-- C4: in every snapshot a refresh cycle produces, every bus entry is
a complete record: each of its four sub-fields is the decoded body of
the corresponding sub-fetch, which succeeded in this very cycle. -/
theorem bus_record_complete {α : Type} (d : Device α) (snap : Snapshot α)
    (warns : List Nat) (b : Nat) (rec : BusRecord α)
    (hu : updateData d = (some snap, warns))
    (hl : busLookup snap.buses b = some rec) :
    d.busStatus b = .ok rec.status ∧
    d.cartridgeStatus b = .ok rec.cartridge ∧
    d.autoShutoff b = .ok rec.auto_shutoff ∧
    d.warnAt b = .ok rec.warn_at := by
  rcases hsys : d.systemStatus with e | sys
  · simp [updateData, hsys] at hu
  · rw [updateData, hsys] at hu
    rcases hrun : runBuses d busIds [] [] with ⟨ob, w⟩
    rw [hrun] at hu
    rcases ob with _ | buses
    · simp at hu
    · simp at hu
      rcases hu with ⟨hsnap, hwarns⟩
      rcases runBuses_lookup d busIds [] [] buses w hrun b rec
          (by rw [← hsnap] at hl; exact hl) with hin | hok
      · simp [busLookup] at hin
      · exact fetchBusRecord_ok hok

/-- C4 witness: the all-success device yields a snapshot whose bus-0
entry is built from the four successful fetches of that cycle. -/
theorem bus_record_complete_witness :
    devAllOk.busStatus 0 = .ok 20 ∧
    devAllOk.cartridgeStatus 0 = .ok 30 ∧
    devAllOk.autoShutoff 0 = .ok 40 ∧
    devAllOk.warnAt 0 = .ok 50 :=
  bus_record_complete devAllOk snapAllOk [] 0 ⟨20, 30, 40, 50⟩ (by decide)
    (by decide)

/-! ## Claim C1 -/

/-- C1 counterexample: on a device whose bus-0 status endpoint returns
a malformed JSON body (everything else healthy), the cycle does not
complete with a snapshot omitting only bus 0 — it produces no snapshot
at all, and no per-bus warning fires: `json.JSONDecodeError` is not an
`aiohttp.ClientError`, so it escapes the per-bus handler and the outer
`except Exception` raises `UpdateFailed`. -/
theorem bus_decode_error_aborts_cycle :
    devJsonErrBus0.busStatus 0 = .error .jsonError ∧
    (updateData devJsonErrBus0).1 = none ∧
    (updateData devJsonErrBus0).2 = [] :=
  ⟨by decide, by decide, by decide⟩

/-- C1 (amended): when the system-status fetch succeeds and no per-bus
sub-fetch fails with a JSON decode error, the cycle completes with a
new snapshot; a bus whose sub-fetch chain failed at transport level
(`aiohttp.ClientError`) is omitted from `buses` and a warning is
recorded for it, while a bus whose four fetches succeeded appears with
its full record. -/
theorem bus_transport_failure_contained {α : Type} (d : Device α) (sys : α)
    (hsys : d.systemStatus = .ok sys)
    (h0 : fetchBusRecord d 0 ≠ .error .jsonError)
    (h1 : fetchBusRecord d 1 ≠ .error .jsonError) :
    ∃ buses warns, updateData d = (some ⟨sys, buses⟩, warns) ∧
      ∀ b, (b = 0 ∨ b = 1) →
        (fetchBusRecord d b = .error .clientError →
          busLookup buses b = none ∧ b ∈ warns) ∧
        (∀ rec, fetchBusRecord d b = .ok rec →
          busLookup buses b = some rec) := by
  rcases hf0 : fetchBusRecord d 0 with e0 | r0
  · rcases e0
    case jsonError => exact absurd hf0 h0
    case clientError =>
      rcases hf1 : fetchBusRecord d 1 with e1 | r1
      · rcases e1
        case jsonError => exact absurd hf1 h1
        case clientError =>
          refine ⟨[], [0, 1],
            by simp [updateData, hsys, busIds, runBuses, hf0, hf1], ?_⟩
          rintro b (rfl | rfl) <;>
            exact ⟨fun _ => ⟨by simp [busLookup, List.find?], by simp⟩,
                   fun rec hr => by simp [hf0, hf1] at hr⟩
      · refine ⟨[(1, r1)], [0],
          by simp [updateData, hsys, busIds, runBuses, hf0, hf1], ?_⟩
        rintro b (rfl | rfl)
        · exact ⟨fun _ => ⟨by simp [busLookup, List.find?], by simp⟩,
                 fun rec hr => by simp [hf0] at hr⟩
        · refine ⟨fun hc => by simp [hf1] at hc, fun rec hr => ?_⟩
          rw [hf1] at hr
          injection hr with h
          subst h
          simp [busLookup, List.find?]
  · rcases hf1 : fetchBusRecord d 1 with e1 | r1
    · rcases e1
      case jsonError => exact absurd hf1 h1
      case clientError =>
        refine ⟨[(0, r0)], [1],
          by simp [updateData, hsys, busIds, runBuses, hf0, hf1], ?_⟩
        rintro b (rfl | rfl)
        · refine ⟨fun hc => by simp [hf0] at hc, fun rec hr => ?_⟩
          rw [hf0] at hr
          injection hr with h
          subst h
          simp [busLookup, List.find?]
        · exact ⟨fun _ => ⟨by simp [busLookup, List.find?], by simp⟩,
                 fun rec hr => by simp [hf1] at hr⟩
    · refine ⟨[(0, r0), (1, r1)], [],
        by simp [updateData, hsys, busIds, runBuses, hf0, hf1], ?_⟩
      rintro b (rfl | rfl)
      · refine ⟨fun hc => by simp [hf0] at hc, fun rec hr => ?_⟩
        rw [hf0] at hr
        injection hr with h
        subst h
        simp [busLookup, List.find?]
      · refine ⟨fun hc => by simp [hf1] at hc, fun rec hr => ?_⟩
        rw [hf1] at hr
        injection hr with h
        subst h
        simp [busLookup, List.find?]

/-- C1 witness: on the device whose bus-1 cartridge endpoint returns
HTTP 500, the amended claim applies concretely. -/
theorem bus_transport_failure_contained_witness :
    ∃ buses warns,
      updateData devClientErrBus1 = (some ⟨10, buses⟩, warns) ∧
      ∀ b, (b = 0 ∨ b = 1) →
        (fetchBusRecord devClientErrBus1 b = .error .clientError →
          busLookup buses b = none ∧ b ∈ warns) ∧
        (∀ rec, fetchBusRecord devClientErrBus1 b = .ok rec →
          busLookup buses b = some rec) :=
  bus_transport_failure_contained devClientErrBus1 10 rfl (by decide)
    (by decide)

/-! ## Claim C2 -/

/-- C2: in every cycle whose system-status fetch fails, no snapshot is
produced (the cycle raises `UpdateFailed`), the previously held
snapshot is retained unchanged, and the success flag is false
afterwards. -/
theorem system_failure_fatal {α : Type} (st : CoordinatorState α)
    (d : Device α) (e : FetchError) (h : d.systemStatus = .error e) :
    updateData d = (none, []) ∧
    refreshStep st d = ⟨st.data, false⟩ := by
  constructor
  · simp [updateData, h]
  · simp [refreshStep, updateData, h]

/-- C2 witness: a concrete failed system fetch against a coordinator
holding a previous snapshot. -/
theorem system_failure_fatal_witness :
    updateData devSysFail = (none, []) ∧
    refreshStep ⟨some snapAllOk, true⟩ devSysFail =
      ⟨some snapAllOk, false⟩ :=
  system_failure_fatal ⟨some snapAllOk, true⟩ devSysFail .clientError rfl

/-! ## Trace lemmas -/

lemma busTrace_sublist {α : Type} (d : Device α) (b : Nat) :
    List.Sublist (busTrace d b)
      [.busStatus b, .cartridgeStatus b, .autoShutoff b, .warnAt b] := by
  unfold busTrace
  repeat' split
  all_goals simp

lemma busLoopTrace_single {α : Type} (d : Device α) (b : Nat) :
    busLoopTrace d [b] = busTrace d b := by
  unfold busLoopTrace
  split <;> simp [busLoopTrace]

lemma busLoopTrace_pair {α : Type} (d : Device α) :
    busLoopTrace d [0, 1] = busTrace d 0 ++ busTrace d 1 ∨
    busLoopTrace d [0, 1] = busTrace d 0 := by
  have hsingle := busLoopTrace_single d 1
  unfold busLoopTrace
  rcases hf : fetchBusRecord d 0 with e0 | r0
  · rcases e0
    case clientError => left; simp [hsingle]
    case jsonError => right; simp
  · left; simp [hsingle]

lemma cycleTrace_sublist {α : Type} (d : Device α) :
    List.Sublist (cycleTrace d) canonicalOrder := by
  show List.Sublist (cycleTrace d)
    (.systemStatus ::
      ([.busStatus 0, .cartridgeStatus 0, .autoShutoff 0, .warnAt 0] ++
       [.busStatus 1, .cartridgeStatus 1, .autoShutoff 1, .warnAt 1]))
  unfold cycleTrace
  rcases hsys : d.systemStatus with e | sys
  · simp
  · refine List.Sublist.cons₂ _ ?_
    show List.Sublist (busLoopTrace d busIds) _
    rw [busIds]
    rcases busLoopTrace_pair d with hp | hp <;> rw [hp]
    · exact List.Sublist.append (busTrace_sublist d 0) (busTrace_sublist d 1)
    · exact (busTrace_sublist d 0).trans (List.sublist_append_left _ _)

/-! ## Claim C6 -/

/-- C6: fetches are issued in a fixed sequential order — system status
first, then for bus 0 and then bus 1 in the order status, cartridge,
auto-shutoff, warn-at (every cycle's fetch trace is a sublist of that
canonical order and begins with the system-status fetch); and when the
system-status fetch fails no per-bus fetch is issued at all. -/
theorem fetch_order_fixed {α : Type} (d : Device α) :
    List.Sublist (cycleTrace d) canonicalOrder ∧
    (cycleTrace d).head? = some .systemStatus ∧
    (∀ e, d.systemStatus = .error e → cycleTrace d = [.systemStatus]) := by
  refine ⟨cycleTrace_sublist d, by simp [cycleTrace], ?_⟩
  intro e h
  simp [cycleTrace, h]

/-- C6 witness: on a device whose system-status fetch fails, the trace
is exactly the system-status fetch. -/
theorem fetch_order_fixed_witness :
    List.Sublist (cycleTrace devSysFail) canonicalOrder ∧
    (cycleTrace devSysFail).head? = some .systemStatus ∧
    cycleTrace devSysFail = [.systemStatus] := by
  obtain ⟨h1, h2, h3⟩ := fetch_order_fixed devSysFail
  exact ⟨h1, h2, h3 .clientError rfl⟩

/-! ## Claim C5 -/

/-- C5: every per-bus fetch a cycle issues targets bus 0 or bus 1 (a
bus identifier outside {0,1} is never fetched), and in every cycle
that produces a snapshot the per-bus fetches were attempted for both
bus 0 and bus 1. -/
theorem bus_ids_fixed {α : Type} (d : Device α) :
    (∀ e ∈ cycleTrace d, ∀ b, e.busTarget = some b → b = 0 ∨ b = 1) ∧
    (∀ snap warns, updateData d = (some snap, warns) →
      Endpoint.busStatus 0 ∈ cycleTrace d ∧
      Endpoint.busStatus 1 ∈ cycleTrace d) := by
  constructor
  · intro e he b hb
    have hmem : e ∈ canonicalOrder := (cycleTrace_sublist d).subset he
    simp [canonicalOrder] at hmem
    rcases hmem with rfl | rfl | rfl | rfl | rfl | rfl | rfl | rfl | rfl <;>
      simp [Endpoint.busTarget] at hb <;> omega
  · intro snap warns h
    rcases hsys : d.systemStatus with e | sys
    · simp [updateData, hsys] at h
    · constructor
      · simp [cycleTrace, hsys, busIds, busLoopTrace, busTrace]
      · rcases hf0 : fetchBusRecord d 0 with e0 | r0
        · rcases e0
          case clientError =>
            simp [cycleTrace, hsys, busIds, busLoopTrace, busTrace, hf0]
          case jsonError =>
            simp [updateData, busIds, runBuses, hsys, hf0] at h
        · simp [cycleTrace, hsys, busIds, busLoopTrace, busTrace, hf0]

/-- C5 witness: a fetched endpoint of the all-success cycle targets an
allowed bus, and both per-bus fetches appear in its trace. -/
theorem bus_ids_fixed_witness :
    (0 = 0 ∨ 0 = 1) ∧
    (Endpoint.busStatus 0 ∈ cycleTrace devAllOk ∧
     Endpoint.busStatus 1 ∈ cycleTrace devAllOk) :=
  ⟨(bus_ids_fixed devAllOk).1 (.busStatus 0) (by decide) 0 rfl,
   (bus_ids_fixed devAllOk).2 snapAllOk [] (by decide)⟩

/-! ## Claim C8 -/

lemma fetchBusRecord_congr {α : Type} {d1 d2 : Device α} {b : Nat}
    (hs : d1.busStatus b = d2.busStatus b)
    (hc : d1.cartridgeStatus b = d2.cartridgeStatus b)
    (ha : d1.autoShutoff b = d2.autoShutoff b)
    (hw : d1.warnAt b = d2.warnAt b) :
    fetchBusRecord d1 b = fetchBusRecord d2 b := by
  unfold fetchBusRecord
  rw [hs, hc, ha, hw]

/-- C8: the refresh computation is a deterministic function of the
endpoint responses at buses 0 and 1 — two cycles against identically
responding endpoints produce equal outcomes, and in particular two
successful such cycles produce snapshots that compare equal
field-for-field. -/
theorem refresh_deterministic {α : Type} (d1 d2 : Device α)
    (hsys : d1.systemStatus = d2.systemStatus)
    (hbus : ∀ b ∈ busIds,
      d1.busStatus b = d2.busStatus b ∧
      d1.cartridgeStatus b = d2.cartridgeStatus b ∧
      d1.autoShutoff b = d2.autoShutoff b ∧
      d1.warnAt b = d2.warnAt b) :
    updateData d1 = updateData d2 ∧
    ∀ s1 s2, (updateData d1).1 = some s1 → (updateData d2).1 = some s2 →
      s1 = s2 := by
  have h0 := hbus 0 (by simp [busIds])
  have h1 := hbus 1 (by simp [busIds])
  have hf0 : fetchBusRecord d1 0 = fetchBusRecord d2 0 :=
    fetchBusRecord_congr h0.1 h0.2.1 h0.2.2.1 h0.2.2.2
  have hf1 : fetchBusRecord d1 1 = fetchBusRecord d2 1 :=
    fetchBusRecord_congr h1.1 h1.2.1 h1.2.2.1 h1.2.2.2
  have inner : ∀ (acc : List (Nat × BusRecord α)) (warns : List Nat),
      runBuses d1 [1] acc warns = runBuses d2 [1] acc warns := by
    intro acc warns
    unfold runBuses
    rw [hf1]
    rcases fetchBusRecord d2 1 with e | r
    · rcases e <;> rfl
    · rfl
  have hr : runBuses d1 busIds [] [] = runBuses d2 busIds [] [] := by
    show runBuses d1 [0, 1] [] [] = runBuses d2 [0, 1] [] []
    unfold runBuses
    rw [hf0]
    rcases fetchBusRecord d2 0 with e | r
    · rcases e
      case clientError => exact inner _ _
      case jsonError => rfl
    · exact inner _ _
  have hu : updateData d1 = updateData d2 := by
    unfold updateData
    rw [hsys, hr]
  refine ⟨hu, fun s1 s2 e1 e2 => ?_⟩
  rw [hu] at e1
  exact Option.some.inj (e1.symm.trans e2)

/-- C8 witness: two syntactically different devices that answer alike
on buses 0 and 1 yield identical refresh outcomes. -/
theorem refresh_deterministic_witness :
    updateData devAllOk = updateData devAllOkVariant := by
  have h := refresh_deterministic devAllOk devAllOkVariant rfl
    (by
      intro b hb
      simp [busIds] at hb
      rcases hb with rfl | rfl <;> exact ⟨by decide, by decide, rfl, rfl⟩)
  exact h.1

/-! ## Claim C9 -/

/-- C9: every per-bus entity is available exactly when the
coordinator's last update succeeded and its bus is present in the held
snapshot's `buses` mapping; after a failed cycle the entity is
unavailable, and after a successful cycle its availability is exactly
the presence of its bus in the new snapshot. -/
theorem entity_availability {α : Type} (st : CoordinatorState α) (b : Nat) :
    (available st b = true ↔
      st.last_update_success = true ∧
      ∃ snap, st.data = some snap ∧ (busLookup snap.buses b).isSome = true) ∧
    (∀ d : Device α, (updateData d).1 = none →
      available (refreshStep st d) b = false) ∧
    (∀ (d : Device α) (snap : Snapshot α), (updateData d).1 = some snap →
      available (refreshStep st d) b = (busLookup snap.buses b).isSome) := by
  refine ⟨?_, ?_, ?_⟩
  · rcases hd : st.data with _ | snap <;> simp [available, hd]
  · intro d h
    simp [refreshStep, h, available]
  · intro d snap h
    simp [refreshStep, h, available]

/-- C9 witness: after a successful refresh from the empty state, the
bus-0 entity is available exactly because bus 0 is in the snapshot. -/
theorem entity_availability_witness :
    available (refreshStep ⟨none, false⟩ devAllOk) 0 =
      (busLookup snapAllOk.buses 0).isSome :=
  (entity_availability ⟨none, false⟩ 0).2.2 devAllOk snapAllOk (by decide)

/-! ## Claim C10 -/

/-- C10: the cartridge-low binary sensor reads false whenever its
entity is unavailable (without raising); when the entity's bus record
is present under a successful coordinator, `is_on` is exactly
`percent_left ≤ 5` (the fixed threshold), and a missing `percent_left`
defaults to 100, yielding false. -/
theorem cartridge_low_iff (st : CoordinatorState JsonObj) (b : Nat) :
    (available st b = false → cartridge_low_is_on st b = some false) ∧
    (∀ (snap : Snapshot JsonObj) (rec : BusRecord JsonObj),
      st.data = some snap → st.last_update_success = true →
      busLookup snap.buses b = some rec →
      (∀ n : Int, dictGetD rec.cartridge "percent_left" (.num 100) = .num n →
        cartridge_low_is_on st b = some (decide (n ≤ 5))) ∧
      (dictGet rec.cartridge "percent_left" = none →
        cartridge_low_is_on st b = some false)) := by
  constructor
  · intro h
    simp [cartridge_low_is_on, h]
  · intro snap rec hd hs hl
    have hav : available st b = true := by simp [available, hd, hs, hl]
    constructor
    · intro n hn
      simp [cartridge_low_is_on, hav, hd, hl, hn, get_threshold,
        DEFAULT_CARTRIDGE_LOW_THRESHOLD]
    · intro hnone
      have hdef : dictGetD rec.cartridge "percent_left" (.num 100) =
          .num 100 := by
        simp [dictGetD, hnone]
      simp [cartridge_low_is_on, hav, hd, hl, hdef, get_threshold,
        DEFAULT_CARTRIDGE_LOW_THRESHOLD]

/-- C10 witness: a bus whose cartridge reports 3 percent left reads as
cartridge-low. -/
theorem cartridge_low_iff_witness :
    cartridge_low_is_on stCartLow 0 = some true := by
  have h := (cartridge_low_iff stCartLow 0).2
    ⟨[("device_name", .str "Liv1")], [(0, cartLowRec)]⟩ cartLowRec
    rfl rfl (by decide)
  have h3 := h.1 3 (by decide)
  simpa using h3

/-! ## Claim C3 -/

/-- C3: against a host answering HTTP 200 with a body lacking
`device_name`, the `try` body of `validate_input` does raise
`InvalidHost`, but the trailing broad `except Exception` clause
converts it, so the caller observes `CannotConnect` — not
`InvalidHost` as the spec states. -/
theorem probe_missing_device_name_yields_cannot_connect :
    validateTry probeNoDeviceName = .error .invalidHost ∧
    validate_input probeNoDeviceName = .error .cannotConnect :=
  ⟨rfl, rfl⟩

/-! ## Claim C7 -/

/-- C7 counterexample: `RepelBridgeAPI.set_brightness` performs no
validation or clamping — called with 300, it transmits 300, which
exceeds the device range bound 254. -/
theorem set_brightness_no_clamp :
    (set_brightness "192.168.4.1" 0 300).value = 300 ∧
    254 < (set_brightness "192.168.4.1" 0 300).value :=
  ⟨rfl, by decide⟩

/-- C7 (amended): the device client transmits the requested brightness
unmodified; the clamp lives in the light entity's turn-on path, which
transmits `min(brightness, 254)` and therefore never a value above
254. -/
theorem light_brightness_clamped (host : String)
    (bus_id ha_brightness : Nat) :
    (light_turn_on_brightness host bus_id ha_brightness).value ≤ 254 ∧
    (set_brightness host bus_id ha_brightness).value = ha_brightness :=
  ⟨Nat.min_le_right ha_brightness 254, rfl⟩

/-- C7 witness: a turn-on request for 300 is clamped to at most 254 by
the light entity, while the raw client call would transmit 300. -/
theorem light_brightness_clamped_witness :
    (light_turn_on_brightness "192.168.4.1" 1 300).value ≤ 254 ∧
    (set_brightness "192.168.4.1" 1 300).value = 300 :=
  light_brightness_clamped "192.168.4.1" 1 300

end RepelBridge
